import Mathlib

/-!
Shallow embedding of `src/lambda.cpp`: a single-translation-unit C++ program
demonstrating lambda expressions with value/reference capture, closures
stored in variables, a comparator sort, a predicate search, and a generic
container whose traversal captures `this`.

Machine integers are modelled as `Int`; the inputs are tiny literals, so no
overflow reduction is needed.  C++ `%` on `int` is truncated remainder,
i.e. `Int.tmod`.  Console output is modelled as `String`s / `List String`
(one entry per printed line, without the trailing newline of `endl`).
Closures with mutable captured state are modelled by explicit state passing:
the closure's captured record is a value, and invocation maps it to an
output together with the updated record.
-/

namespace LambdaCpp

/-! ### Predicate search (lines 73-105)

`can_divide` is the function-object variant; the lambda variant at line 99,
`[n](int x){return x % n == 0;}`, computes the identical expression, so one
definition embeds both. -/

/-- `can_divide(n)(x)`: `x % n_ == 0` with C++ truncated remainder. -/
def can_divide (n x : Int) : Bool := x.tmod n == 0

/-- The array `ar` at line 91. -/
def ar : List Int := [9, 7, 5, 3, 1, -2, -4, -6, -8, 0]

/-- `std::find_if` over a sequence: first element satisfying `p`, or
`none` for the end iterator. -/
def find_if (p : α → Bool) : List α → Option α
  | [] => none
  | x :: xs => if p x then some x else find_if p xs

/-- Lines 103-105: if `found != ar+10`, print
`*found << " can be divided by " << n`. -/
def search_demo (n : Int) : List String :=
  match find_if (can_divide n) ar with
  | some v => [toString v ++ " can be divided by " ++ toString n]
  | none => []

/-- Guarded embedding of the divisibility predicate: a divisor of `0` is a
division-by-zero precondition violation (UB in the C++ source), modelled as
the `none` branch. -/
def can_divide_checked (n x : Int) : Option Bool :=
  if n = 0 then none else some (can_divide n x)

/-! ### Comparator sort (lines 82-87, 116-120)

`abs_less` is the function-object comparator; the lambda at line 117
computes the identical expression.  `std::sort` is an unspecified
comparison sort whose postcondition is: the result is a permutation of the
input, sorted with respect to the negation of the flipped comparator
(`!comp(y, x)`, i.e. "not greater").  We model it by insertion sort over
that non-strict relation. -/

/-- `abs_less()(x, y)`: `(x > 0 ? x : -x) < (y > 0 ? y : -y)`. -/
def abs_less (x y : Int) : Bool :=
  (if x > 0 then x else -x) < (if y > 0 then y else -y)

/-- The non-strict relation a comparator-sorted sequence satisfies:
`x` may precede `y` iff `!abs_less(y, x)`. -/
def sortRel (x y : Int) : Prop := abs_less y x = false

instance : DecidableRel sortRel := fun x y => decEq (abs_less y x) false

/-- The array after `sort(ar, ar+10, ...)` at line 117, modelled by
insertion sort over `sortRel`. -/
def sorted_ar : List Int := List.insertionSort sortRel ar

instance : IsTotal Int sortRel where
  total x y := by
    simp only [sortRel, abs_less, decide_eq_false_iff_not, not_lt]
    split <;> split <;> omega

instance : IsTrans Int sortRel where
  trans x y z := by
    simp only [sortRel, abs_less, decide_eq_false_iff_not, not_lt]
    split <;> split <;> split <;> omega

/-! ### Closures as values (lines 130-137) -/

/-- `println`: prints its argument followed by `endl`; modelled as the
emitted line. -/
def println (str : String) : String := str

/-- `polite`: `[](const std::string& str) { return str + " SIR "; }`. -/
def polite (str : String) : String := str ++ " SIR "

/-- Lines 135-137: `println(polite("Ben")); println(polite("Bingshiue"));`
collected as printed lines. -/
def polite_demo : List String :=
  let msg := polite "Ben"
  [println msg, println (polite "Bingshiue")]

/-! ### Value capture (lines 146-149) -/

/-- The enclosing scope's mutable variables at the point where
`capt_print` is constructed. -/
structure Env where
  number : Int
  n : Int

/-- Constructing `capt_print = [number](){...}` copies `number` out of the
environment: the closure's state is that snapshot. -/
def capt_print_mk (env : Env) : Int := env.number

/-- Invoking `capt_print`: `cout << number << " Captured " << endl`. -/
def capt_print_invoke (snapshot : Int) : String :=
  toString snapshot ++ " Captured "

/-- Lines 146-149, with the post-construction writes to enclosing-scope
variables abstracted as an arbitrary mutation `f` (the source performs
`n = 456`): build the closure when `number = 123`, mutate the scope, then
invoke. -/
def value_capture_demo (f : Env → Env) : String :=
  let env0 : Env := { number := 123, n := 4 }
  let snapshot := capt_print_mk env0
  let _env1 := f env0
  capt_print_invoke snapshot

/-! ### Mutable value capture (lines 158-163)

`capt_print2 = [number]() mutable {cout << number++ << " Captured " << endl;}`
captures `number` (which still holds `123`), not `number2`. -/

/-- The mutable closure's captured record: its own copy of `number`. -/
structure CaptPrint2 where
  number : Int

/-- One invocation of `capt_print2`: print the internal copy, then
post-increment it. -/
def CaptPrint2.invoke (c : CaptPrint2) : String × CaptPrint2 :=
  (toString c.number ++ " Captured ", ⟨c.number + 1⟩)

/-- `k` successive invocations, collecting the printed lines. -/
def CaptPrint2.invokeN (c : CaptPrint2) : Nat → List String × CaptPrint2
  | 0 => ([], c)
  | k + 1 =>
    let (out, c1) := c.invoke
    let (outs, c2) := c1.invokeN k
    (out :: outs, c2)

/-- Lines 158-163 with the initial value of `number2` generalised to `v`
and the number of invocations to `k`: returns the closure's printed lines
and the final `"number2 = ..."` report line.  `number2` is never written
after its initialisation, and the closure's copy is initialised from
`number` (`123`). -/
def mutable_capture_demo (v : Int) (k : Nat) : List String × String :=
  let number : Int := 123
  let number2 : Int := v
  let capt_print2 : CaptPrint2 := ⟨number⟩
  let (outs, _) := capt_print2.invokeN k
  (outs, "number2 = " ++ toString number2)

/-! ### Reference capture (lines 174-184)

`capt_print3 = [&number3]() { std::cout << number3++ << " Captured \n"; }`
aliases the live variable: its state IS `number3`. -/

/-- One invocation of `capt_print3` on the live value of `number3`:
print it, then increment the aliased variable. -/
def capt_print3_invoke (number3 : Int) : String × Int :=
  (toString number3 ++ " Captured ", number3 + 1)

/-- Lines 174-184 as a trace: three invocations, a report of `number3`,
an external assignment `number3 = 456`, one more invocation, and a final
report. -/
def ref_capture_demo : List String :=
  let n0 : Int := 123
  let (o1, n1) := capt_print3_invoke n0
  let (o2, n2) := capt_print3_invoke n1
  let (o3, n3) := capt_print3_invoke n2
  let r1 := "number3 = " ++ toString n3
  let n4 : Int := 456
  let (o4, n5) := capt_print3_invoke n4
  let r2 := "number3 = " ++ toString n5
  [o1, o2, o3, r1, o4, r2]

/-! ### Multi-variable mixed capture (lines 189-197) -/

/-- `count_less = [&count,target](int x) { if ( x < target) ++count; }`:
`count` is captured by reference (threaded state), `target` by value. -/
def count_less (target : Int) (count : Int) (x : Int) : Int :=
  if x < target then count + 1 else count

/-- The array `data` at line 194. -/
def data_arr : List Int := [1, 3, 5, 7, 2, 4, 6, 8]

/-- Lines 195-196: `count = 0; std::for_each(data, data+8, count_less);`
— the counter after the full traversal. -/
def count_less_demo (target : Int) (xs : List Int) : Int :=
  xs.foldl (count_less target) 0

/-! ### Capturing `this` (lines 51-60, 208-210) -/

/-- The generic container `numbers<T>`: a growable sequence. -/
structure numbers (T : Type) where
  data : List T

/-- `numbers::add`: `data.push_back(x)` appends to the end. -/
def numbers.add (c : numbers T) (x : T) : numbers T := ⟨c.data ++ [x]⟩

/-- `numbers::print_one`: `cout << x << " "` — the fragment printed for one
element. -/
def numbers.print_one [ToString T] (_c : numbers T) (x : T) : String :=
  toString x ++ " "

/-- `numbers::print_all`: `for_each(data.begin(), data.end(),
[this](T x){print_one(x);})` — the closure captures the container's
identity and formats each stored element in order. -/
def numbers.print_all [ToString T] (c : numbers T) : List String :=
  c.data.map (fun x => c.print_one x)

/-- An empty container followed by a sequence of `add` calls. -/
def numbers.ofAdds (xs : List T) : numbers T :=
  xs.foldl numbers.add ⟨[]⟩

theorem numbers.ofAdds_aux (l xs : List T) :
    (xs.foldl numbers.add ⟨l⟩).data = l ++ xs := by
  induction xs generalizing l with
  | nil => simp
  | cons x xs ih =>
    simp only [List.foldl_cons, numbers.add, ih, List.append_assoc,
      List.singleton_append]

/-! ## Theorems for the claims -/

/-- C1: predicate search over `ar = {9,7,5,3,1,-2,-4,-6,-8,0}` with
captured divisor `4` returns `-4`, the first element in sequence order with
remainder `0` modulo `4`, and the program prints the line
`-4 can be divided by 4`; with divisor `1` it returns `9`, the first
element. -/
theorem search_returns_first_divisible :
    find_if (can_divide 4) ar = some (-4) ∧
    search_demo 4 = ["-4 can be divided by 4"] ∧
    find_if (can_divide 1) ar = some 9 :=
  ⟨rfl, rfl, rfl⟩

/-- C2: three invocations of the mutable value-capture closure
`capt_print2`, whose copy is initialised from `number = 123`, print
`123`, `124`, `125` in order (print-then-increment), and the final report
line is `number2 = 123`; moreover for any number `k` of invocations the
report still shows the untouched initial value `123`. -/
theorem mutable_capture_prints_and_preserves :
    (mutable_capture_demo 123 3).1 =
      ["123 Captured ", "124 Captured ", "125 Captured "] ∧
    (mutable_capture_demo 123 3).2 = "number2 = 123" ∧
    ∀ k : Nat, (mutable_capture_demo 123 k).2 = "number2 = 123" :=
  ⟨rfl, rfl, fun _ => rfl⟩

/-- C3: the reference-capture closure `capt_print3` reads and increments
the live `number3`: the demo trace is `123/124/125 Captured`,
`number3 = 126`, then after the external assignment `number3 = 456` the
next invocation prints `456` and leaves `number3 = 457`; in general an
invocation at live value `v` prints `v` and stores back `v + 1`, so
mutations are visible in both directions. -/
theorem ref_capture_trace :
    ref_capture_demo =
      ["123 Captured ", "124 Captured ", "125 Captured ",
       "number3 = 126", "456 Captured ", "number3 = 457"] ∧
    ∀ v : Int, capt_print3_invoke v = (toString v ++ " Captured ", v + 1) :=
  ⟨rfl, fun _ => rfl⟩

/-- C4: sorting `ar` with the absolute-value comparator yields a
permutation of the input whose absolute values are non-decreasing (the
model produces `{0,1,-2,3,-4,5,-6,7,-8,9}`, one acceptable result), and
the comparator returns `false` in either order on a pair of equal
magnitude (a value and its negation), so the relative order of such pairs
is not pinned down by the comparator. -/
theorem sort_by_abs_correct :
    sorted_ar.Perm ar ∧
    sorted_ar.Pairwise (fun x y => x.natAbs ≤ y.natAbs) ∧
    sorted_ar = [0, 1, -2, 3, -4, 5, -6, 7, -8, 9] ∧
    (∀ x : Int, abs_less x (-x) = false ∧ abs_less (-x) x = false) := by
  refine ⟨List.perm_insertionSort sortRel ar, ?_, by decide, ?_⟩
  · refine (List.sorted_insertionSort sortRel ar).imp ?_
    intro x y h
    simp only [sortRel, abs_less, decide_eq_false_iff_not, not_lt] at h
    split at h <;> split at h <;> omega
  · intro x
    simp only [abs_less, decide_eq_false_iff_not, not_lt]
    constructor <;> split <;> split <;> omega

/-- C5: for every sequence of `add` calls starting from an empty
`numbers<T>`, the internal sequence equals exactly the appended values in
insertion order, and `print_all` formats each stored element exactly once,
in insertion order. -/
theorem numbers_add_print_all (T : Type) [ToString T] (xs : List T) :
    (numbers.ofAdds xs).data = xs ∧
    (numbers.ofAdds xs).print_all = xs.map (fun x => toString x ++ " ") := by
  have h : (numbers.ofAdds xs).data = xs := by
    simpa using numbers.ofAdds_aux [] xs
  refine ⟨h, ?_⟩
  simp [numbers.print_all, numbers.print_one, h]

/-- C6 counterexample: after the full traversal of `{1,3,5,7,2,4,6,8}`
with threshold `5`, the counter is NOT `3` — the elements strictly less
than `5` are `1, 3, 2, 4`, so the counter is `4`. -/
theorem count_less_not_three : ¬ count_less_demo 5 data_arr = 3 := by
  decide

/-- C6 (amended): traversing `{1,3,5,7,2,4,6,8}` with `count_less`
(counter by reference, threshold `5` by value) leaves the counter at `4`,
the number of elements strictly less than `5`; each step adds exactly `1`
for a qualifying element and `0` otherwise, so the counter never
decreases. -/
theorem count_less_counts_four :
    count_less_demo 5 data_arr = 4 ∧
    count_less_demo 5 data_arr = (data_arr.countP (fun x => x < 5) : Int) ∧
    (∀ t c x : Int, count_less t c x = c + (if x < t then 1 else 0)) ∧
    (∀ t c x : Int, c ≤ count_less t c x) := by
  refine ⟨by decide, by decide, fun t c x => ?_, fun t c x => ?_⟩
  · simp only [count_less]; split <;> omega
  · simp only [count_less]; split <;> omega

/-- C7: the value-capture closure `capt_print`, constructed when
`number = 123`, snapshots the value by copy: whatever mutation of the
enclosing-scope variables happens after construction, invoking it prints
`123 Captured `, and any two runs differing only in those post-construction
mutations produce identical closure output. -/
theorem value_capture_noninterference (f g : Env → Env) :
    value_capture_demo f = "123 Captured " ∧
    value_capture_demo f = value_capture_demo g :=
  ⟨rfl, rfl⟩

/-- C8: under the precondition that the captured divisor is non-zero, the
guarded divisibility predicate never takes its error branch: it returns
`some` of the total predicate `can_divide` at every integer.  A zero
divisor is the (unguarded) division-by-zero precondition violation. -/
theorem can_divide_checked_total (n : Int) (h : n ≠ 0) :
    ∀ x : Int, can_divide_checked n x = some (can_divide n x) := by
  intro x
  simp [can_divide_checked, h]

/-- Witness for C8: the program's divisor `4` is non-zero, and the guarded
predicate at `x = -4` returns `some true`. -/
theorem can_divide_checked_total_witness :
    can_divide_checked 4 (-4) = some (can_divide 4 (-4)) :=
  can_divide_checked_total 4 (by decide) (-4)

/-- C9: `polite` appends the fixed suffix `" SIR "` to any string,
`println` emits its argument as a line, the composition
`println(polite(s))` emits the line `s ++ " SIR "` for every `s`, both
closures are pure functions of their argument (no state carries over, so
repeated calls agree), and the program's two composed calls print
`Ben SIR ` and `Bingshiue SIR `. -/
theorem polite_println_compose :
    (∀ s : String, polite s = s ++ " SIR ") ∧
    (∀ s : String, println (polite s) = s ++ " SIR ") ∧
    polite_demo = ["Ben SIR ", "Bingshiue SIR "] :=
  ⟨fun _ => rfl, fun _ => rfl, rfl⟩

/-- C10: `capt_print2` initialises its internal copy from `number`
(`123`), not from `number2`: for every initial value `v` of `number2`,
three invocations still print `123`, `124`, `125`, and the final report
prints exactly `v` — the closure's output and `number2` do not interfere. -/
theorem mutable_capture_independent_of_number2 (v : Int) :
    (mutable_capture_demo v 3).1 =
      ["123 Captured ", "124 Captured ", "125 Captured "] ∧
    (mutable_capture_demo v 3).2 = "number2 = " ++ toString v :=
  ⟨rfl, rfl⟩

end LambdaCpp
